import Mathlib

/-!
Verification development for the e-commerce backend.

The Python services are shallowly embedded as pure Lean functions over an
explicit database state (`DB`).  Each request handler becomes a function
`DB → ... → DB × Except Err α`: the returned `DB` is the committed state after
the call (Python raises roll back the uncommitted session, so error paths that
abort before `db.commit()` return the input state unchanged), and the
`Except Err α` is the HTTP outcome, with `Err` recording only the class of the
raised exception (the classes of `src/common/exceptions.py` plus built-in
Python errors).  Decimal arithmetic is exact in the source (no rounding
anywhere in the modelled code paths), so money values are rationals.
UUIDs generated inside a handler are supplied as explicit fresh-identifier
arguments; columns never read by the modelled handlers (timestamps, addresses,
images, ...) are omitted from the record types.
-/

namespace ECom

/-- Database keys (`uuid.UUID` in the source). -/
abbrev EntityId := Nat

/-- Exact decimal amounts (`decimal.Decimal` in the source). -/
abbrev Money := ℚ

/-- The class of a Python exception surfaced by a handler:
`ValidationError` (422), `NotFoundError` (404), `ConflictError` (409),
forbidden `HTTPException` (403) from `src/common/exceptions.py`, plus the
built-in `AttributeError` and `TypeError` (surfaced as 500). -/
inductive Err where
  | notFound
  | validationErr
  | conflict
  | forbidden
  | attributeErr
  | typeErr
  deriving DecidableEq, Repr

instance {ε α : Type} [DecidableEq ε] [DecidableEq α] : DecidableEq (Except ε α) := fun x y =>
  match x, y with
  | .ok a, .ok b =>
    if h : a = b then .isTrue (by rw [h]) else .isFalse (by simpa using h)
  | .error a, .error b =>
    if h : a = b then .isTrue (by rw [h]) else .isFalse (by simpa using h)
  | .ok _, .error _ => .isFalse (by simp)
  | .error _, .ok _ => .isFalse (by simp)

/-- Enum `UserRole` from `src/auth/user/models.py`. -/
inductive UserRole where
  | normalUser
  | seller
  | admin
  deriving DecidableEq, Repr

/-- Enum `OrderStatus` from `src/orders/models.py`. -/
inductive OrderStatus where
  | pending
  | confirmed
  | processing
  | shipped
  | delivered
  | cancelled
  | refunded
  deriving DecidableEq, Repr

/-- Enum `PaymentStatus` from `src/orders/models.py` (the per-order payment status). -/
inductive OrdPaymentStatus where
  | pending
  | paid
  | failed
  | refunded
  deriving DecidableEq, Repr

/-- Enum `PaymentStatus` from `src/payment/models.py` (the per-payment status). -/
inductive PayStatus where
  | pending
  | processing
  | completed
  | failed
  | cancelled
  | refunded
  | refundedInPart
  deriving DecidableEq, Repr

/-- Enum `PaymentProvider` from `src/payment/models.py`. -/
inductive Provider where
  | stripe
  | paypal
  | razorpay
  | square
  | manual
  deriving DecidableEq, Repr

/-- Row of `users` (`src/auth/user/models.py`), restricted to the columns the
modelled handlers read. -/
structure User where
  id : EntityId
  email : String
  username : String
  role : UserRole
  deriving DecidableEq, Repr

/-- Row of `products` (`src/product/models.py`).  Note the model defines a
column `stock` and defines NO `stock_quantity` and NO `is_active` column. -/
structure Product where
  id : EntityId
  sellerId : EntityId
  title : String
  price : Money
  stock : Int
  deriving DecidableEq, Repr

/-- Row of `carts` (`src/cart/models.py`). -/
structure Cart where
  id : EntityId
  userId : EntityId
  totalPrice : Money
  deriving DecidableEq, Repr

/-- Row of `cart_items` (`src/cart/models.py`). -/
structure CartItem where
  id : EntityId
  cartId : EntityId
  productId : EntityId
  quantity : Nat
  subtotalPrice : Money
  deriving DecidableEq, Repr

/-- Row of `orders` (`src/orders/models.py`). -/
structure Order where
  id : EntityId
  userId : EntityId
  status : OrderStatus
  paymentStatus : OrdPaymentStatus
  subtotal : Money
  taxAmount : Money
  shippingCost : Money
  totalAmount : Money
  deriving DecidableEq, Repr

/-- Row of `order_items` (`src/orders/models.py`). -/
structure OrderItem where
  id : EntityId
  orderId : EntityId
  productId : EntityId
  productName : String
  productPrice : Money
  quantity : Nat
  subtotal : Money
  deriving DecidableEq, Repr

/-- Row of payments (`Payment` in `src/payment/models.py`). -/
structure Payment where
  id : EntityId
  userId : EntityId
  orderId : EntityId
  amount : Money
  provider : Provider
  status : PayStatus
  deriving DecidableEq, Repr

/-- Row of payment refunds (`PaymentRefund` in `src/payment/models.py`). -/
structure Refund where
  id : EntityId
  paymentId : EntityId
  userId : EntityId
  amount : Money
  status : PayStatus
  deriving DecidableEq, Repr

/-- Row of saved payment methods (`PaymentMethodInfo` in `src/payment/models.py`). -/
structure PayMethodInfo where
  id : EntityId
  userId : EntityId
  isDefault : Bool
  isActive : Bool
  deriving DecidableEq, Repr

/-- The relational store. -/
structure DB where
  users : List User
  carts : List Cart
  cartItems : List CartItem
  products : List Product
  orders : List Order
  orderItems : List OrderItem
  payments : List Payment
  refunds : List Refund
  payMethods : List PayMethodInfo
  deriving DecidableEq, Repr

/-- Query `select(Product).where(Product.id == pid)` + `scalar_one_or_none()`. -/
def findProduct (db : DB) (pid : EntityId) : Option Product :=
  db.products.find? (fun p => p.id == pid)

/-- Query `select(Order).where(Order.id == oid)` + `scalar_one_or_none()`. -/
def findOrder (db : DB) (oid : EntityId) : Option Order :=
  db.orders.find? (fun o => o.id == oid)

/-- Query `select(Payment).where(Payment.id == pid)` + `scalar_one_or_none()`. -/
def findPayment (db : DB) (pid : EntityId) : Option Payment :=
  db.payments.find? (fun p => p.id == pid)

/-- Query `select(CartItem).where(CartItem.cart_id == cid)` (all rows of a cart). -/
def cartItemsOf (db : DB) (cid : EntityId) : List CartItem :=
  db.cartItems.filter (fun i => i.cartId == cid)

/-- Query `select(OrderItem).where(OrderItem.order_id == oid)` (all rows of an order). -/
def orderItemsOf (db : DB) (oid : EntityId) : List OrderItem :=
  db.orderItems.filter (fun i => i.orderId == oid)

/-- In-place mutation of the single row returned by `scalar_one_or_none()`:
apply `f` to the first element satisfying `p` (primary keys are unique, so at
most one row ever matches). -/
def updateFirst (p : α → Bool) (f : α → α) : List α → List α
  | [] => []
  | x :: xs => if p x then f x :: xs else x :: updateFirst p f xs

/-! ## OrderService (`src/orders/service.py`) -/

/-- One entry of `order_data.order_items` (`OrderItemCreate` in
`src/orders/schema.py`; its `quantity` field is validated `ge=1`). -/
structure OrderItemCreate where
  productId : EntityId
  quantity : Nat
  deriving DecidableEq, Repr

/-- One entry of the `order_items_data` list built by
`OrderService.create_order` (lines 193-215). -/
structure ItemData where
  productId : EntityId
  productName : String
  productPrice : Money
  quantity : Nat
  subtotal : Money
  deriving DecidableEq, Repr

/-- The validation loop of `OrderService.create_order` (lines 193-215):
for each line item, look the product up (`NotFoundError` if missing), check
`product.stock < item.quantity` (`ValidationError` on insufficient stock),
and accumulate the subtotal and the snapshot data. -/
def validateOrderItems (db : DB) : List OrderItemCreate → Except Err (Money × List ItemData)
  | [] => .ok (0, [])
  | it :: rest =>
    match findProduct db it.productId with
    | none => .error .notFound
    | some p =>
      if p.stock < (it.quantity : Int) then .error .validationErr
      else
        match validateOrderItems db rest with
        | .error e => .error e
        | .ok (s, ds) =>
          .ok (p.price * (it.quantity : Money) + s,
               ⟨it.productId, p.title, p.price, it.quantity,
                p.price * (it.quantity : Money)⟩ :: ds)

/-- The stock-decrement loop of `OrderService.create_order` (lines 242-254):
for each snapshot entry, `product.stock -= item_data.quantity` on the session
object, so repeated products accumulate decrements. -/
def applyStockDecrements (products : List Product) (ds : List ItemData) : List Product :=
  ds.foldl
    (fun ps d =>
      ps.map (fun p =>
        if p.id == d.productId then { p with stock := p.stock - (d.quantity : Int) } else p))
    products

/-- Handler `OrderService.create_order` (lines 184-357).  `orderId` and `itemIdBase`
stand for the generated UUIDs.  Tax is the subtotal times the constant
decimal 0.10 and shipping is the fixed decimal 10.00 (lines 218-220).  On
`NotFoundError` or `ValidationError` the handler rolls back, so the state is
returned unchanged; on success the order, its items and the stock decrements
are committed together. -/
def createOrder (db : DB) (user : User) (items : List OrderItemCreate)
    (orderId itemIdBase : EntityId) : DB × Except Err Order :=
  match validateOrderItems db items with
  | .error e => (db, .error e)
  | .ok (subtotal, ds) =>
    let taxAmount := subtotal * (1 / 10 : Money)
    let shippingCost : Money := 10
    let totalAmount := subtotal + taxAmount + shippingCost
    let order : Order :=
      ⟨orderId, user.id, .pending, .pending, subtotal, taxAmount, shippingCost, totalAmount⟩
    let newItems := ds.enum.map (fun x =>
      (⟨itemIdBase + x.1, orderId, x.2.productId, x.2.productName, x.2.productPrice,
        x.2.quantity, x.2.subtotal⟩ : OrderItem))
    ({ db with
        orders := db.orders ++ [order]
        orderItems := db.orderItems ++ newItems
        products := applyStockDecrements db.products ds },
     .ok order)

/-- The fields of `OrderUpdate` (`src/orders/schema.py` lines 34-41) that the
claims read; `model_dump(exclude_unset=True)` makes each present field
overwrite the stored one (address and timestamp fields are updated the same
way and are omitted here). -/
structure OrderUpdate where
  status : Option OrderStatus
  paymentStatus : Option OrdPaymentStatus
  deriving DecidableEq, Repr

/-- Handler `OrderService.update_order` (lines 360-433): look the order up, check only
ownership for normal users, then `setattr` every provided field with NO check
against the current status, and commit. -/
def updateOrder (db : DB) (user : User) (orderId : EntityId) (u : OrderUpdate) :
    DB × Except Err Order :=
  match findOrder db orderId with
  | none => (db, .error .notFound)
  | some o =>
    if user.role == .normalUser && !(o.userId == user.id) then (db, .error .forbidden)
    else
      let o2 : Order := { o with
        status := u.status.getD o.status
        paymentStatus := u.paymentStatus.getD o.paymentStatus }
      ({ db with orders := updateFirst (fun x => x.id == orderId) (fun _ => o2) db.orders },
       .ok o2)

/-- Total quantity of the given order items that reference product `pid`. -/
def qtySum (items : List OrderItem) (pid : EntityId) : Int :=
  ((items.filter (fun i => i.productId == pid)).map (fun i => (i.quantity : Int))).sum

/-- The stock-restoration loop of `OrderService.cancel_order` (lines 460-471):
for each order item, if the product still exists, `product.stock += item.quantity`. -/
def restoreStock (products : List Product) (items : List OrderItem) : List Product :=
  items.foldl
    (fun ps it =>
      ps.map (fun p =>
        if p.id == it.productId then { p with stock := p.stock + (it.quantity : Int) } else p))
    products

/-- Handler `OrderService.cancel_order` (lines 436-485): look the order up, check
ownership for normal users, reject with `ValidationError` when the status is
`SHIPPED`, `DELIVERED` or `CANCELLED`, otherwise set the status to `CANCELLED`,
restore the stock of every order item and commit. -/
def cancelOrder (db : DB) (user : User) (orderId : EntityId) : DB × Except Err Order :=
  match findOrder db orderId with
  | none => (db, .error .notFound)
  | some o =>
    if user.role == .normalUser && !(o.userId == user.id) then (db, .error .forbidden)
    else if o.status == .shipped || o.status == .delivered || o.status == .cancelled then
      (db, .error .validationErr)
    else
      let o2 : Order := { o with status := .cancelled }
      ({ db with
          orders := updateFirst (fun x => x.id == orderId) (fun _ => o2) db.orders
          products := restoreStock db.products (orderItemsOf db orderId) },
       .ok o2)

/-! ## CartService (`src/cart/service.py`) -/

/-- Schema `CartItemCreate` from `src/cart/schema.py` (`quantity` validated `ge=1`). -/
structure CartItemCreate where
  productId : EntityId
  quantity : Nat
  deriving DecidableEq, Repr

/-- The role gate used by the cart mutation endpoints:
`current_user.role not in [NORMAL_USER, SELLER, ADMIN]`.  `UserRole` has
exactly these three members, so the gate never fires; it is kept for
structural fidelity. -/
def roleIsKnown (r : UserRole) : Bool :=
  r == .normalUser || r == .seller || r == .admin

/-- Handler `CartService.add_item_to_cart` (lines 166-210): role gate, cart lookup,
product lookup, then a NEW cart item row with `subtotal_price = price * quantity`
and `cart.total_price += subtotal`, committed together. -/
def addItemToCart (db : DB) (user : User) (cartId : EntityId) (it : CartItemCreate)
    (itemId : EntityId) : DB × Except Err CartItem :=
  if !roleIsKnown user.role then (db, .error .forbidden)
  else
    match db.carts.find? (fun c => c.id == cartId) with
    | none => (db, .error .notFound)
    | some _ =>
      match findProduct db it.productId with
      | none => (db, .error .notFound)
      | some p =>
        let subtotal := p.price * (it.quantity : Money)
        let item : CartItem := ⟨itemId, cartId, it.productId, it.quantity, subtotal⟩
        ({ db with
            cartItems := db.cartItems ++ [item]
            carts := updateFirst (fun c => c.id == cartId)
              (fun c => { c with totalPrice := c.totalPrice + subtotal }) db.carts },
         .ok item)

/-- Handler `CartService.update_cart_item` (lines 212-268): role gate, item lookup by
`(id, cart_id)`, product lookup, cart lookup, then the item quantity and
subtotal are recomputed from the CURRENT product price and the cart total is
adjusted by the difference.  `CartItemUpdate.quantity` is `Optional`; a request
without it sets the quantity to `None` and the subsequent
`product.price * None` raises `TypeError` before anything is committed. -/
def updateCartItem (db : DB) (user : User) (cartId itemId : EntityId)
    (quantity : Option Nat) : DB × Except Err CartItem :=
  if !roleIsKnown user.role then (db, .error .forbidden)
  else
    match db.cartItems.find? (fun i => i.id == itemId && i.cartId == cartId) with
    | none => (db, .error .notFound)
    | some item =>
      match findProduct db item.productId with
      | none => (db, .error .notFound)
      | some p =>
        match db.carts.find? (fun c => c.id == cartId) with
        | none => (db, .error .notFound)
        | some _ =>
          match quantity with
          | none => (db, .error .typeErr)
          | some q =>
            let newSub := p.price * (q : Money)
            let item2 : CartItem := { item with quantity := q, subtotalPrice := newSub }
            ({ db with
                cartItems := updateFirst (fun i => i.id == itemId && i.cartId == cartId)
                  (fun _ => item2) db.cartItems
                carts := updateFirst (fun c => c.id == cartId)
                  (fun c => { c with totalPrice := c.totalPrice - item.subtotalPrice + newSub })
                  db.carts },
             .ok item2)

/-- Handler `CartService.remove_cart_item` (lines 270-311): role gate, item lookup by
`(id, cart_id)`, cart lookup, then `cart.total_price -= item.subtotal_price`
and the item row is deleted. -/
def removeCartItem (db : DB) (user : User) (cartId itemId : EntityId) :
    DB × Except Err Unit :=
  if !roleIsKnown user.role then (db, .error .forbidden)
  else
    match db.cartItems.find? (fun i => i.id == itemId && i.cartId == cartId) with
    | none => (db, .error .notFound)
    | some item =>
      match db.carts.find? (fun c => c.id == cartId) with
      | none => (db, .error .notFound)
      | some _ =>
        ({ db with
            carts := updateFirst (fun c => c.id == cartId)
              (fun c => { c with totalPrice := c.totalPrice - item.subtotalPrice }) db.carts
            cartItems := db.cartItems.eraseP
              (fun i => i.id == itemId && i.cartId == cartId) },
         .ok ())

/-- Handler `CartService.get_my_cart` (lines 17-70): return the cart of the current
user, auto-creating an empty one when none exists. -/
def getMyCart (db : DB) (user : User) (newCartId : EntityId) : DB × Cart :=
  match db.carts.find? (fun c => c.userId == user.id) with
  | some c => (db, c)
  | none =>
    let c : Cart := ⟨newCartId, user.id, 0⟩
    ({ db with carts := db.carts ++ [c] }, c)

/-- Handler `CartService.delete_cart` (lines 146-163): cart lookup, role gate, then
the cart row is deleted (the ORM cascade `all, delete-orphan` removes its
items with it).  No replacement cart is created. -/
def deleteCart (db : DB) (user : User) (cartId : EntityId) : DB × Except Err Unit :=
  match db.carts.find? (fun c => c.id == cartId) with
  | none => (db, .error .notFound)
  | some _ =>
    if !roleIsKnown user.role then (db, .error .forbidden)
    else
      ({ db with
          carts := db.carts.eraseP (fun c => c.id == cartId)
          cartItems := db.cartItems.filter (fun i => !(i.cartId == cartId)) },
       .ok ())

/-! ## PaymentService (`src/payment/service.py`)

Payment providers are external services (vendor SDKs or mocks); their
responses are supplied through `ProviderEnv`: which provider names
`_initialize_providers` put into the provider map, and whether each gateway
call reports success. -/

/-- Environment of the payment-provider abstraction. -/
structure ProviderEnv where
  configured : List Provider
  intentOk : Bool
  refundOk : Bool
  methodOk : Bool
  deriving DecidableEq, Repr

/-- The fields of `PaymentIntentCreate` (`src/payment/schema.py`) read by the
modelled handler; its `amount` is validated `gt=0`. -/
structure PaymentIntentData where
  orderId : EntityId
  amount : Money
  provider : Provider
  deriving DecidableEq, Repr

/-- Handler `PaymentService.create_payment_intent` (lines 85-174): order lookup
(`NotFoundError`), ownership gate (403 unless owner or the role string equals
admin or seller), the amount-equality check of lines 107-109
(`ValidationError` when `payment_data.amount != order.total_amount`),
provider lookup (`ValidationError` when not configured), the gateway call
(`ValidationError` when it reports failure), and only then a `Payment` row
with status `PENDING` is inserted and committed.  Every error path rolls the
session back, returning the state unchanged. -/
def createPaymentIntent (db : DB) (user : User) (d : PaymentIntentData)
    (env : ProviderEnv) (payId : EntityId) : DB × Except Err Payment :=
  match findOrder db d.orderId with
  | none => (db, .error .notFound)
  | some order =>
    if !(order.userId == user.id) && !(user.role == .admin || user.role == .seller) then
      (db, .error .forbidden)
    else if !(d.amount == order.totalAmount) then (db, .error .validationErr)
    else if !(env.configured.contains d.provider) then (db, .error .validationErr)
    else if !env.intentOk then (db, .error .validationErr)
    else
      let pay : Payment := ⟨payId, user.id, order.id, d.amount, d.provider, .pending⟩
      ({ db with payments := db.payments ++ [pay] }, .ok pay)

/-- The fields of `RefundCreate` (`src/payment/schema.py` lines 133-136) the
handler reads; the optional `amount` is validated `gt=0` when present. -/
structure RefundData where
  paymentId : EntityId
  amount : Option Money
  deriving DecidableEq, Repr

/-- Handler `PaymentService.create_refund` (lines 355-436): payment lookup
(`NotFoundError`), ownership gate (owner or admin), `ValidationError` unless
the payment status is `COMPLETED`, then
`refund_amount = refund_data.amount or payment.amount` (Python truthiness: a
zero amount also falls back to the full payment amount), and the check of
lines 384-385: `ValidationError` when `refund_amount > payment.amount`.  Only
after that the provider is called and a refund row is inserted; on gateway
success the payment status becomes `REFUNDED`/`PARTIALLY_REFUNDED` and the
order payment status `REFUNDED`.  Every raise rolls back, leaving the state
unchanged. -/
def createRefund (db : DB) (user : User) (rd : RefundData) (env : ProviderEnv)
    (refundId : EntityId) : DB × Except Err Refund :=
  match findPayment db rd.paymentId with
  | none => (db, .error .notFound)
  | some pay =>
    if !(pay.userId == user.id) && !(user.role == .admin) then (db, .error .forbidden)
    else if !(pay.status == .completed) then (db, .error .validationErr)
    else
      let refundAmount :=
        match rd.amount with
        | some a => if a = 0 then pay.amount else a
        | none => pay.amount
      if refundAmount > pay.amount then (db, .error .validationErr)
      else if !(env.configured.contains pay.provider) then (db, .error .validationErr)
      else
        let ok := env.refundOk
        let refund : Refund :=
          ⟨refundId, pay.id, user.id, refundAmount, if ok then .completed else .failed⟩
        let newStatus :=
          if ok then (if refundAmount = pay.amount then PayStatus.refunded
                      else PayStatus.refundedInPart)
          else pay.status
        ({ db with
            refunds := db.refunds ++ [refund]
            payments := updateFirst (fun p => p.id == rd.paymentId)
              (fun p => { p with status := newStatus }) db.payments
            orders :=
              if ok then
                updateFirst (fun o => o.id == pay.orderId)
                  (fun o => { o with paymentStatus := .refunded }) db.orders
              else db.orders },
         .ok refund)

/-- The fields of `PaymentMethodCreate` (`src/payment/schema.py`) the claims
read (`is_default` defaults to `False`). -/
structure PayMethodCreate where
  provider : Provider
  isDefault : Bool
  deriving DecidableEq, Repr

/-- The loop of `create_payment_method` lines 480-490: clear the default flag
on EVERY existing default of the user. -/
def unsetAllDefaults (l : List PayMethodInfo) (uid : EntityId) : List PayMethodInfo :=
  l.map (fun m =>
    if m.userId == uid && m.isDefault then { m with isDefault := false } else m)

/-- Handler `PaymentService.create_payment_method` (lines 438-515): provider lookup
and gateway call, then — when `is_default` is set — lines 480-490 load every
existing default of the user and clear its flag, and finally the new row is
inserted with `is_active=True` and everything is committed together. -/
def createPaymentMethod (db : DB) (user : User) (d : PayMethodCreate)
    (env : ProviderEnv) (methodId : EntityId) : DB × Except Err PayMethodInfo :=
  if !(env.configured.contains d.provider) then (db, .error .validationErr)
  else if !env.methodOk then (db, .error .validationErr)
  else
    let ms :=
      if d.isDefault then unsetAllDefaults db.payMethods user.id
      else db.payMethods
    let m : PayMethodInfo := ⟨methodId, user.id, d.isDefault, true⟩
    ({ db with payMethods := ms ++ [m] }, .ok m)

/-- Schema `PaymentMethodUpdate` from `src/payment/schema.py` (lines 112-114). -/
structure PayMethodUpdate where
  isDefault : Option Bool
  isActive : Option Bool
  deriving DecidableEq, Repr

/-- The loop of `update_payment_method` lines 556-569: clear the default flag
on every OTHER default of the user (the row being updated excluded). -/
def unsetOtherDefaults (l : List PayMethodInfo) (uid methodId : EntityId) :
    List PayMethodInfo :=
  l.map (fun m =>
    if m.userId == uid && m.isDefault && !(m.id == methodId) then
      { m with isDefault := false }
    else m)

/-- The field writes of `update_payment_method` lines 571-574: overwrite
`is_default` and `is_active` with whichever of them the update provides. -/
def applyMethodUpdate (u : PayMethodUpdate) (m : PayMethodInfo) : PayMethodInfo :=
  let m1 := match u.isDefault with
    | some b => { m with isDefault := b }
    | none => m
  match u.isActive with
  | some b => { m1 with isActive := b }
  | none => m1

/-- Handler `PaymentService.update_payment_method` (lines 533-586): method lookup
(`NotFoundError`), ownership gate, then — when `is_default` is `True` —
lines 556-569 clear the flag of every OTHER default of the user, and the
provided fields are written onto the row; one commit. -/
def updatePaymentMethod (db : DB) (user : User) (methodId : EntityId)
    (u : PayMethodUpdate) : DB × Except Err PayMethodInfo :=
  match db.payMethods.find? (fun m => m.id == methodId) with
  | none => (db, .error .notFound)
  | some m0 =>
    if !(m0.userId == user.id) then (db, .error .forbidden)
    else
      let ms1 :=
        match u.isDefault with
        | some true => unsetOtherDefaults db.payMethods user.id methodId
        | _ => db.payMethods
      ({ db with payMethods := (updateFirst (fun m => m.id == methodId)
          (applyMethodUpdate u) ms1) },
       .ok (applyMethodUpdate u m0))

/-! ## UserService (`src/auth/user/service.py`) -/

/-- The fields of `UserCreate` the modelled handler reads. -/
structure UserCreate where
  email : String
  username : String
  role : UserRole
  deriving DecidableEq, Repr

/-- Handler `UserService.create_user` (lines 94-169): `ConflictError` when the email
or the username is already taken (checked BEFORE anything is written), then
the user row is committed, and a cart for the new user is created and
committed (lines 135-143). -/
def createUser (db : DB) (d : UserCreate) (userId cartId : EntityId) :
    DB × Except Err User :=
  if (db.users.find? (fun u => u.email == d.email)).isSome then (db, .error .conflict)
  else if (db.users.find? (fun u => u.username == d.username)).isSome then
    (db, .error .conflict)
  else
    let u : User := ⟨userId, d.email, d.username, d.role⟩
    let c : Cart := ⟨cartId, userId, 0⟩
    ({ db with users := db.users ++ [u], carts := db.carts ++ [c] }, .ok u)

/-! ## CartCheckoutService (`src/cart/checkout_service.py`) -/

/-- The attribute lookup `product.is_active` performed by
`checkout_cart` (line 70).  The `Product` model (`src/product/models.py`)
defines no `is_active` column, so the lookup raises `AttributeError` in
Python; it is modelled as the corresponding error outcome. -/
def productIsActive (_p : Product) : Except Err Bool := .error .attributeErr

/-- The attribute lookup `product.stock_quantity` performed by
`checkout_cart` (line 73).  The `Product` model defines `stock` but no
`stock_quantity` column, so this lookup also raises `AttributeError`. -/
def productStockQuantity (_p : Product) : Except Err Int := .error .attributeErr

/-- The validation loop of `checkout_cart` (lines 61-85): for each cart item,
product lookup (`ValidationError` when the product no longer exists), then the
`is_active` check, the `stock_quantity < quantity` check, and the accumulation
of `product.price * quantity` into the running total. -/
def checkoutValidateItems (db : DB) : List CartItem → Except Err Money
  | [] => .ok 0
  | ci :: rest =>
    match findProduct db ci.productId with
    | none => .error .validationErr
    | some p =>
      match productIsActive p with
      | .error e => .error e
      | .ok active =>
        if !active then .error .validationErr
        else
          match productStockQuantity p with
          | .error e => .error e
          | .ok sq =>
            if sq < (ci.quantity : Int) then .error .validationErr
            else
              match checkoutValidateItems db rest with
              | .error e => .error e
              | .ok s => .ok (p.price * (ci.quantity : Money) + s)

/-- The order-item snapshot loop of `checkout_cart` (lines 117-132): each cart
item is looked up again and an `OrderItem` row is built from `product.title`
and `product.price`; a vanished product makes `product.title` an attribute
access on `None`, raising `AttributeError`. -/
def buildCheckoutOrderItems (db : DB) (orderId : EntityId) :
    List (EntityId × CartItem) → Except Err (List OrderItem)
  | [] => .ok []
  | (i, ci) :: rest =>
    match findProduct db ci.productId with
    | none => .error .attributeErr
    | some p =>
      match buildCheckoutOrderItems db orderId rest with
      | .error e => .error e
      | .ok l =>
        .ok (⟨i, orderId, ci.productId, p.title, p.price, ci.quantity,
              p.price * (ci.quantity : Money)⟩ :: l)

/-- Handler `CartCheckoutService._clear_cart` (lines 178-203): delete every item of
the cart and reset its total to zero. -/
def clearCart (db : DB) (cartId : EntityId) : DB :=
  { db with
      cartItems := db.cartItems.filter (fun i => !(i.cartId == cartId))
      carts := updateFirst (fun c => c.id == cartId)
        (fun c => { c with totalPrice := 0 }) db.carts }

/-- The fields of `CartCheckout` (`src/cart/schema.py`) the handler reads;
`tax_rate` defaults to the decimal 0.10 and `shipping_cost` to zero. -/
structure CheckoutData where
  cartId : EntityId
  taxRate : Money
  shippingCost : Money
  provider : Provider
  deriving DecidableEq, Repr

/-- Handler `CartCheckoutService.checkout_cart` (lines 33-176): cart lookup
(`NotFoundError`), `ValidationError` on an empty cart, the validation loop,
then the order header and item snapshots are inserted and COMMITTED (line
134), then `create_payment_intent` is invoked, and the cart is cleared only
after a successful payment step.  The `except` block rolls back, which cannot
undo the committed order, so a failure in the payment step returns the state
with the order still present; a failure before the commit returns the input
state unchanged. -/
def checkoutCart (db : DB) (user : User) (cd : CheckoutData) (env : ProviderEnv)
    (orderId itemIdBase payId : EntityId) : DB × Except Err (Order × Payment) :=
  match db.carts.find? (fun c => c.id == cd.cartId) with
  | none => (db, .error .notFound)
  | some _ =>
    let items := cartItemsOf db cd.cartId
    if items.isEmpty then (db, .error .validationErr)
    else
      match checkoutValidateItems db items with
      | .error e => (db, .error e)
      | .ok totalAmount =>
        let taxAmount := totalAmount * cd.taxRate
        let finalTotal := totalAmount + taxAmount + cd.shippingCost
        let order : Order :=
          ⟨orderId, user.id, .pending, .pending, totalAmount, taxAmount,
           cd.shippingCost, finalTotal⟩
        match buildCheckoutOrderItems db orderId
            (items.enum.map (fun x => (itemIdBase + x.1, x.2))) with
        | .error e => (db, .error e)
        | .ok newItems =>
          let db1 := { db with
            orders := db.orders ++ [order]
            orderItems := db.orderItems ++ newItems }
          match createPaymentIntent db1 user ⟨orderId, finalTotal, cd.provider⟩ env payId with
          | (db2, .error e) => (db2, .error e)
          | (db2, .ok pay) => (clearCart db2 cd.cartId, .ok (order, pay))

/-! ## Invariants -/

/-- Sum of `subtotal_price` over the items of cart `cid`. -/
def itemsSum (l : List CartItem) (cid : EntityId) : Money :=
  ((l.filter (fun i => i.cartId == cid)).map (fun i => i.subtotalPrice)).sum

/-- The cached-total invariant of §3: every cart row caches the sum of the
`subtotal_price` of its items. -/
def CartTotalsInv (db : DB) : Prop :=
  ∀ c ∈ db.carts, c.totalPrice = itemsSum db.cartItems c.id

instance (db : DB) : Decidable (CartTotalsInv db) := by
  unfold CartTotalsInv
  infer_instance

/-- Primary-key uniqueness of `carts.id`. -/
def CartIdsNodup (db : DB) : Prop := (db.carts.map Cart.id).Nodup

instance (db : DB) : Decidable (CartIdsNodup db) := by
  unfold CartIdsNodup
  infer_instance

/-- Primary-key uniqueness of `payment_methods.id`. -/
def PayMethodIdsNodup (db : DB) : Prop := (db.payMethods.map PayMethodInfo.id).Nodup

/-- The carts belonging to user `uid`. -/
def cartsOfUser (db : DB) (uid : EntityId) : List Cart :=
  db.carts.filter (fun c => c.userId == uid)

/-- No user ever has two carts (the `unique=True` column constraint on
`carts.user_id`). -/
def AtMostOneCartPerUser (db : DB) : Prop :=
  ∀ uid, (cartsOfUser db uid).length ≤ 1

/-- The saved payment methods of user `uid` flagged as default. -/
def defaultsOfUser (db : DB) (uid : EntityId) : List PayMethodInfo :=
  db.payMethods.filter (fun m => m.userId == uid && m.isDefault)

/-- At most one saved payment method per user is flagged as default. -/
def AtMostOneDefault (db : DB) : Prop :=
  ∀ uid, (defaultsOfUser db uid).length ≤ 1

/-! ## Concrete states used by the counterexamples and witnesses -/

/-- A normal user. -/
def alice : User := ⟨1, "alice@example.com", "alice", .normalUser⟩

/-- An admin user. -/
def adminUser : User := ⟨2, "admin@example.com", "admin", .admin⟩

/-- Provider environment of the default configuration: only the manual
provider is registered and every gateway call succeeds. -/
def envManual : ProviderEnv := ⟨[.manual], true, true, true⟩

/-- Checkout data paying cart 21 through the manual provider with the default
tax rate and shipping cost. -/
def cdManual : CheckoutData := ⟨21, 1 / 10, 0, .manual⟩

/-- One product with a single unit of stock. -/
def dbStockOne : DB :=
  { users := [alice], carts := [], cartItems := [],
    products := [⟨11, 2, "widget", 5, 1⟩], orders := [], orderItems := [],
    payments := [], refunds := [], payMethods := [] }

/-- Cart 21 of user 1 holds one unit of product 11, whose stock is zero. -/
def dbLowStock : DB :=
  { users := [alice], carts := [⟨21, 1, 10⟩], cartItems := [⟨31, 21, 11, 1, 10⟩],
    products := [⟨11, 2, "widget", 10, 0⟩], orders := [], orderItems := [],
    payments := [], refunds := [], payMethods := [] }

/-- Cart 21 of user 1 references product 99, which no longer exists. -/
def dbOrphanItem : DB :=
  { users := [alice], carts := [⟨21, 1, 10⟩], cartItems := [⟨31, 21, 99, 1, 10⟩],
    products := [], orders := [], orderItems := [],
    payments := [], refunds := [], payMethods := [] }

/-- Cart 21 of user 1 holds one unit of product 11, with five units in
stock — a checkout that ought to reach the payment step. -/
def dbAmpleStock : DB :=
  { users := [alice], carts := [⟨21, 1, 10⟩], cartItems := [⟨31, 21, 11, 1, 10⟩],
    products := [⟨11, 2, "widget", 10, 5⟩], orders := [], orderItems := [],
    payments := [], refunds := [], payMethods := [] }

/-- One order in `SHIPPED` status. -/
def dbShippedOrder : DB :=
  { users := [alice], carts := [], cartItems := [], products := [],
    orders := [⟨41, 1, .shipped, .pending, 100, 10, 10, 120⟩], orderItems := [],
    payments := [], refunds := [], payMethods := [] }

/-- The `SHIPPED` order of `dbShippedOrder`. -/
def shippedOrder : Order := ⟨41, 1, .shipped, .pending, 100, 10, 10, 120⟩

/-- A `PENDING` order of user 1 over two units of product 11 (stock 3 after
the decrement at order creation). -/
def dbPendingOrder : DB :=
  { users := [alice], carts := [], cartItems := [],
    products := [⟨11, 2, "widget", 5, 3⟩],
    orders := [⟨41, 1, .pending, .pending, 10, 1, 10, 21⟩],
    orderItems := [⟨51, 41, 11, "widget", 5, 2, 10⟩],
    payments := [], refunds := [], payMethods := [] }

/-- The `PENDING` order of `dbPendingOrder`. -/
def pendingOrder : Order := ⟨41, 1, .pending, .pending, 10, 1, 10, 21⟩

/-- User 1 owns exactly one cart. -/
def dbOneCart : DB :=
  { users := [alice], carts := [⟨21, 1, 0⟩], cartItems := [], products := [],
    orders := [], orderItems := [], payments := [], refunds := [], payMethods := [] }

/-- A satisfied cart-total invariant: cart 21 holds two items. -/
def dbCartInv : DB :=
  { users := [alice], carts := [⟨21, 1, 16⟩],
    cartItems := [⟨31, 21, 11, 1, 10⟩, ⟨32, 21, 12, 2, 6⟩],
    products := [⟨11, 2, "widget", 10, 5⟩, ⟨12, 2, "gizmo", 3, 9⟩],
    orders := [], orderItems := [], payments := [], refunds := [], payMethods := [] }

/-- A completed payment of 120 for order 41 (total 120). -/
def dbPayDone : DB :=
  { users := [alice], carts := [], cartItems := [], products := [],
    orders := [⟨41, 1, .pending, .paid, 100, 10, 10, 120⟩], orderItems := [],
    payments := [⟨61, 1, 41, 120, .manual, .completed⟩], refunds := [],
    payMethods := [] }

/-- The completed payment of `dbPayDone`. -/
def donePayment : Payment := ⟨61, 1, 41, 120, .manual, .completed⟩

/-- User 1 has one saved payment method, flagged as default. -/
def dbOneMethod : DB :=
  { users := [alice], carts := [], cartItems := [], products := [],
    orders := [], orderItems := [], payments := [], refunds := [],
    payMethods := [⟨71, 1, true, true⟩] }

/-! ## Basic lemmas about the list combinators -/

theorem updateFirst_of_find?_eq_none {p : α → Bool} {f : α → α} {l : List α}
    (h : l.find? p = none) : updateFirst p f l = l := by
  induction l with
  | nil => rfl
  | cons x xs ih =>
    cases hx : p x with
    | true => rw [List.find?_cons_of_pos _ hx] at h; exact absurd h (by simp)
    | false =>
      rw [List.find?_cons_of_neg _ (by simp [hx])] at h
      simp [updateFirst, hx, ih h]

theorem find?_updateFirst_same {p : α → Bool} {f : α → α} {l : List α} {x0 : α}
    (h : l.find? p = some x0) (hf : p (f x0) = true) :
    (updateFirst p f l).find? p = some (f x0) := by
  induction l with
  | nil => simp at h
  | cons x xs ih =>
    rw [List.find?_cons] at h
    cases hx : p x with
    | true =>
      simp [hx] at h
      subst h
      simp [updateFirst, hx, List.find?_cons, hf]
    | false =>
      simp [hx] at h
      simp [updateFirst, hx, List.find?_cons, ih h]

theorem updateFirst_key_eq_map (key : α → EntityId) (k : EntityId) (f : α → α)
    (l : List α) (h : (l.map key).Nodup) :
    updateFirst (fun x => key x == k) f l =
      l.map (fun x => if key x == k then f x else x) := by
  induction l with
  | nil => rfl
  | cons x xs ih =>
    simp only [List.map_cons, List.nodup_cons] at h
    by_cases hx : key x = k
    · have hxs : xs.map (fun y => if key y == k then f y else y) = xs := by
        conv_rhs => rw [← List.map_id xs]
        apply List.map_congr_left
        intro a ha
        have hak : key a ≠ k := by
          intro hk
          exact h.1 (List.mem_map.mpr ⟨a, ha, hk.trans hx.symm⟩)
        simp [hak]
      have hgx : (if key x == k then f x else x) = f x := by simp [hx]
      calc updateFirst (fun y => key y == k) f (x :: xs) = f x :: xs := by
            simp [updateFirst, hx]
        _ = (if key x == k then f x else x) ::
              xs.map (fun y => if key y == k then f y else y) := by rw [hgx, hxs]
        _ = (x :: xs).map (fun y => if key y == k then f y else y) := rfl
    · simp [updateFirst, hx, ih h.2]

theorem itemsSum_cons (x : CartItem) (l : List CartItem) (cid : EntityId) :
    itemsSum (x :: l) cid =
      (if x.cartId == cid then x.subtotalPrice else 0) + itemsSum l cid := by
  by_cases h : x.cartId = cid <;> simp [itemsSum, List.filter_cons, h]

theorem itemsSum_append_single (l : List CartItem) (x : CartItem) (cid : EntityId) :
    itemsSum (l ++ [x]) cid =
      itemsSum l cid + (if x.cartId == cid then x.subtotalPrice else 0) := by
  by_cases h : x.cartId = cid <;>
    simp [itemsSum, List.filter_append, List.filter_cons, h]

theorem itemsSum_updateFirst {p : CartItem → Bool} {f : CartItem → CartItem}
    {l : List CartItem} {x0 : CartItem} (h : l.find? p = some x0) (cid : EntityId) :
    itemsSum (updateFirst p f l) cid =
      itemsSum l cid - (if x0.cartId == cid then x0.subtotalPrice else 0)
        + (if (f x0).cartId == cid then (f x0).subtotalPrice else 0) := by
  induction l with
  | nil => simp at h
  | cons x xs ih =>
    cases hx : p x with
    | true =>
      rw [List.find?_cons_of_pos _ hx] at h
      have hx0 : x = x0 := by injection h
      subst hx0
      have hu : updateFirst p f (x :: xs) = f x :: xs := by simp [updateFirst, hx]
      rw [hu, itemsSum_cons, itemsSum_cons]
      ring
    | false =>
      rw [List.find?_cons_of_neg _ (by simp [hx])] at h
      have hu : updateFirst p f (x :: xs) = x :: updateFirst p f xs := by
        simp [updateFirst, hx]
      rw [hu, itemsSum_cons, itemsSum_cons, ih h]
      ring

theorem itemsSum_eraseP {p : CartItem → Bool} {l : List CartItem} {x0 : CartItem}
    (h : l.find? p = some x0) (cid : EntityId) :
    itemsSum (l.eraseP p) cid =
      itemsSum l cid - (if x0.cartId == cid then x0.subtotalPrice else 0) := by
  induction l with
  | nil => simp at h
  | cons x xs ih =>
    cases hx : p x with
    | true =>
      rw [List.find?_cons_of_pos _ hx] at h
      have hx0 : x = x0 := by injection h
      subst hx0
      rw [List.eraseP_cons_of_pos hx, itemsSum_cons]
      ring
    | false =>
      rw [List.find?_cons_of_neg _ (by simp [hx])] at h
      rw [List.eraseP_cons_of_neg (by simp [hx]), itemsSum_cons, itemsSum_cons, ih h]
      ring

theorem itemsSum_filter_not (l : List CartItem) (cid0 cid : EntityId) :
    itemsSum (l.filter (fun i => !(i.cartId == cid0))) cid =
      if cid = cid0 then 0 else itemsSum l cid := by
  induction l with
  | nil => by_cases hc : cid = cid0 <;> simp [itemsSum, hc]
  | cons x xs ih =>
    by_cases hx0 : x.cartId = cid0
    · have hfc : (x :: xs).filter (fun i => !(i.cartId == cid0)) =
          xs.filter (fun i => !(i.cartId == cid0)) := by
        simp [List.filter_cons, hx0]
      rw [hfc, ih, itemsSum_cons]
      by_cases hc : cid = cid0
      · simp [hc]
      · have hxc : (x.cartId == cid) = false := by
          rw [hx0]
          exact beq_eq_false_iff_ne.mpr (fun hcc => hc hcc.symm)
        simp [hc, hxc]
    · have hfc : (x :: xs).filter (fun i => !(i.cartId == cid0)) =
          x :: xs.filter (fun i => !(i.cartId == cid0)) := by
        simp [List.filter_cons, hx0]
      rw [hfc, itemsSum_cons, ih, itemsSum_cons]
      by_cases hc : cid = cid0
      · have hxc : (x.cartId == cid) = false := by
          rw [hc]
          exact beq_eq_false_iff_ne.mpr hx0
        simp [hc, hxc]
        exact fun hcc => absurd hcc hx0
      · simp [hc]

theorem roleIsKnown_eq_true (r : UserRole) : roleIsKnown r = true := by
  cases r <;> rfl

theorem cartTotalsInv_addItem (db : DB) (user : User) (cartId : EntityId)
    (it : CartItemCreate) (itemId : EntityId)
    (hinv : CartTotalsInv db) (hnd : CartIdsNodup db) :
    CartTotalsInv (addItemToCart db user cartId it itemId).1 := by
  rw [addItemToCart]
  simp only [roleIsKnown_eq_true, Bool.not_true, Bool.false_eq_true, if_false]
  cases hc : db.carts.find? (fun c => c.id == cartId) with
  | none => exact hinv
  | some cart =>
    cases hp : findProduct db it.productId with
    | none => exact hinv
    | some p =>
      intro c' hc'
      simp only at hc'
      rw [updateFirst_key_eq_map Cart.id cartId _ _ hnd] at hc'
      obtain ⟨c, hcmem, rfl⟩ := List.mem_map.mp hc'
      by_cases hcid : c.id = cartId
      · simp only [hcid, beq_self_eq_true, if_true]
        rw [itemsSum_append_single]
        simp only [hcid, beq_self_eq_true, if_true]
        rw [hinv c hcmem, hcid]
      · have hb : (c.id == cartId) = false := beq_eq_false_iff_ne.mpr hcid
        simp only [hb, Bool.false_eq_true, if_false]
        rw [itemsSum_append_single]
        have hb2 : ((⟨itemId, cartId, it.productId, it.quantity,
            p.price * (it.quantity : Money)⟩ : CartItem).cartId == c.id) = false := by
          exact beq_eq_false_iff_ne.mpr (fun hcc => hcid hcc.symm)
        simp only [hb2, Bool.false_eq_true, if_false, add_zero]
        exact hinv c hcmem

theorem cartTotalsInv_updateItem (db : DB) (user : User) (cartId itemId : EntityId)
    (q : Option Nat) (hinv : CartTotalsInv db) (hnd : CartIdsNodup db) :
    CartTotalsInv (updateCartItem db user cartId itemId q).1 := by
  rw [updateCartItem]
  simp only [roleIsKnown_eq_true, Bool.not_true, Bool.false_eq_true, if_false]
  split
  · exact hinv
  next item hi =>
    split
    · exact hinv
    next p hp =>
      split
      · exact hinv
      next cart hcart =>
        split
        · exact hinv
        next qty =>
          intro c' hc'
          simp only at hc'
          rw [updateFirst_key_eq_map Cart.id cartId _ _ hnd] at hc'
          obtain ⟨c, hcmem, rfl⟩ := List.mem_map.mp hc'
          have hitem := List.find?_some hi
          have hicart : item.cartId = cartId := by
            simp only [Bool.and_eq_true, beq_iff_eq] at hitem
            exact hitem.2
          by_cases hcid : c.id = cartId
          · simp only [hcid, beq_self_eq_true, if_true]
            rw [itemsSum_updateFirst hi]
            simp only [hicart, beq_self_eq_true, if_true]
            rw [hinv c hcmem, hcid]
          · have hb : (c.id == cartId) = false := beq_eq_false_iff_ne.mpr hcid
            simp only [hb, Bool.false_eq_true, if_false]
            rw [itemsSum_updateFirst hi]
            have h1 : (item.cartId == c.id) = false := by
              rw [hicart]
              exact beq_eq_false_iff_ne.mpr (fun hcc => hcid hcc.symm)
            simp only [h1, Bool.false_eq_true, if_false, sub_zero, add_zero]
            exact hinv c hcmem

theorem cartTotalsInv_removeItem (db : DB) (user : User) (cartId itemId : EntityId)
    (hinv : CartTotalsInv db) (hnd : CartIdsNodup db) :
    CartTotalsInv (removeCartItem db user cartId itemId).1 := by
  rw [removeCartItem]
  simp only [roleIsKnown_eq_true, Bool.not_true, Bool.false_eq_true, if_false]
  split
  · exact hinv
  next item hi =>
    split
    · exact hinv
    next cart hcart =>
      intro c' hc'
      simp only at hc'
      rw [updateFirst_key_eq_map Cart.id cartId _ _ hnd] at hc'
      obtain ⟨c, hcmem, rfl⟩ := List.mem_map.mp hc'
      have hitem := List.find?_some hi
      have hicart : item.cartId = cartId := by
        simp only [Bool.and_eq_true, beq_iff_eq] at hitem
        exact hitem.2
      by_cases hcid : c.id = cartId
      · simp only [hcid, beq_self_eq_true, if_true]
        rw [itemsSum_eraseP hi]
        simp only [hicart, beq_self_eq_true, if_true]
        rw [hinv c hcmem, hcid]
      · have hb : (c.id == cartId) = false := beq_eq_false_iff_ne.mpr hcid
        simp only [hb, Bool.false_eq_true, if_false]
        rw [itemsSum_eraseP hi]
        have h1 : (item.cartId == c.id) = false := by
          rw [hicart]
          exact beq_eq_false_iff_ne.mpr (fun hcc => hcid hcc.symm)
        simp only [h1, Bool.false_eq_true, if_false, sub_zero]
        exact hinv c hcmem

theorem cartTotalsInv_clearCart (db : DB) (cartId : EntityId)
    (hinv : CartTotalsInv db) (hnd : CartIdsNodup db) :
    CartTotalsInv (clearCart db cartId) := by
  rw [clearCart]
  intro c' hc'
  simp only at hc'
  rw [updateFirst_key_eq_map Cart.id cartId _ _ hnd] at hc'
  obtain ⟨c, hcmem, rfl⟩ := List.mem_map.mp hc'
  by_cases hcid : c.id = cartId
  · simp only [hcid, beq_self_eq_true, if_true]
    rw [itemsSum_filter_not]
    simp
  · have hb : (c.id == cartId) = false := beq_eq_false_iff_ne.mpr hcid
    simp only [hb, Bool.false_eq_true, if_false]
    rw [itemsSum_filter_not]
    simp only [hcid, if_false]
    exact hinv c hcmem

/-- Claim C5: for every cart, the cached `total_price` equals the sum of the
`subtotal_price` of its cart items, and this equality is preserved by every
cart mutation — adding an item, updating the quantity of an item, removing an
item, and clearing the cart after checkout (given the primary-key uniqueness
of cart ids that the database enforces). -/
theorem c5_cart_total_invariant :
    (∀ (db : DB) (user : User) (cartId : EntityId) (it : CartItemCreate)
        (itemId : EntityId), CartTotalsInv db → CartIdsNodup db →
        CartTotalsInv (addItemToCart db user cartId it itemId).1) ∧
    (∀ (db : DB) (user : User) (cartId itemId : EntityId) (q : Option Nat),
        CartTotalsInv db → CartIdsNodup db →
        CartTotalsInv (updateCartItem db user cartId itemId q).1) ∧
    (∀ (db : DB) (user : User) (cartId itemId : EntityId),
        CartTotalsInv db → CartIdsNodup db →
        CartTotalsInv (removeCartItem db user cartId itemId).1) ∧
    (∀ (db : DB) (cartId : EntityId),
        CartTotalsInv db → CartIdsNodup db →
        CartTotalsInv (clearCart db cartId)) :=
  ⟨cartTotalsInv_addItem, cartTotalsInv_updateItem, cartTotalsInv_removeItem,
   cartTotalsInv_clearCart⟩

/-- Witness for C5 at a concrete two-item cart. -/
theorem c5_cart_total_witness :
    (CartTotalsInv dbCartInv ∧ CartIdsNodup dbCartInv) ∧
    CartTotalsInv (addItemToCart dbCartInv alice 21 ⟨12, 3⟩ 33).1 ∧
    CartTotalsInv (updateCartItem dbCartInv alice 21 31 (some 2)).1 ∧
    CartTotalsInv (removeCartItem dbCartInv alice 21 31).1 ∧
    CartTotalsInv (clearCart dbCartInv 21) := by
  have hinv : CartTotalsInv dbCartInv := by
    intro c hc
    simp only [dbCartInv, List.mem_singleton] at hc
    subst hc
    norm_num [itemsSum, dbCartInv, List.filter_cons, List.filter_nil]
  have hnd : CartIdsNodup dbCartInv := by decide
  exact ⟨⟨hinv, hnd⟩,
    c5_cart_total_invariant.1 dbCartInv alice 21 ⟨12, 3⟩ 33 hinv hnd,
    c5_cart_total_invariant.2.1 dbCartInv alice 21 31 (some 2) hinv hnd,
    c5_cart_total_invariant.2.2.1 dbCartInv alice 21 31 hinv hnd,
    c5_cart_total_invariant.2.2.2 dbCartInv 21 hinv hnd⟩

theorem permBool_eq_false {user : User} {ouid : EntityId}
    (h : ¬(user.role = .normalUser ∧ ouid ≠ user.id)) :
    (user.role == .normalUser && !(ouid == user.id)) = false := by
  by_cases hr : user.role = .normalUser
  · have hid : ouid = user.id := by
      by_contra hne
      exact h ⟨hr, hne⟩
    simp [hid]
  · have hb : (user.role == UserRole.normalUser) = false := beq_eq_false_iff_ne.mpr hr
    simp [hb]

/-- Claim C2, counterexample: `update_order` moves order 41 from `SHIPPED`
straight back to `PENDING` — the update succeeds and the stored status is
`PENDING` afterwards, so order statuses are not monotonic. -/
theorem c2_status_counterexample :
    (updateOrder dbShippedOrder adminUser 41 ⟨some .pending, none⟩).2 =
      .ok ⟨41, 1, .pending, .pending, 100, 10, 10, 120⟩ ∧
    findOrder (updateOrder dbShippedOrder adminUser 41 ⟨some .pending, none⟩).1 41 =
      some ⟨41, 1, .pending, .pending, 100, 10, 10, 120⟩ ∧
    shippedOrder.status = .shipped ∧ dbShippedOrder.orders = [shippedOrder] := by
  decide

/-- Claim C2, amended: `update_order` performs no lifecycle validation at
all — whatever status the update carries is written regardless of the current
status (so statuses can also move backwards); the only transition-restricted
operation is the explicit cancel, which rejects orders already in `SHIPPED`,
`DELIVERED` or `CANCELLED` status. -/
theorem c2_update_order_unchecked :
    (∀ (db : DB) (user : User) (orderId : EntityId) (o : Order) (u : OrderUpdate)
        (s2 : OrderStatus),
      findOrder db orderId = some o →
      ¬(user.role = .normalUser ∧ o.userId ≠ user.id) →
      u.status = some s2 →
      (updateOrder db user orderId u).2 =
        .ok { o with status := s2
                     paymentStatus := u.paymentStatus.getD o.paymentStatus } ∧
      findOrder (updateOrder db user orderId u).1 orderId =
        some { o with status := s2
                      paymentStatus := u.paymentStatus.getD o.paymentStatus }) ∧
    (∀ (db : DB) (user : User) (orderId : EntityId) (o : Order),
      findOrder db orderId = some o →
      ¬(user.role = .normalUser ∧ o.userId ≠ user.id) →
      (o.status = .shipped ∨ o.status = .delivered ∨ o.status = .cancelled) →
      cancelOrder db user orderId = (db, .error .validationErr)) := by
  constructor
  · intro db user orderId o u s2 h hperm hu
    have hfind : db.orders.find? (fun x => x.id == orderId) = some o := by
      simpa [findOrder] using h
    have hid := List.find?_some hfind
    rw [updateOrder]
    simp only [h, permBool_eq_false hperm, Bool.false_eq_true, if_false, hu,
      Option.getD_some]
    refine ⟨trivial, ?_⟩
    show (updateFirst (fun x => x.id == orderId) _ db.orders).find?
        (fun x => x.id == orderId) = _
    exact find?_updateFirst_same hfind hid
  · intro db user orderId o h hperm hstat
    have hs : (o.status == OrderStatus.shipped || o.status == OrderStatus.delivered ||
        o.status == OrderStatus.cancelled) = true := by
      rcases hstat with h1 | h1 | h1 <;> simp [h1]
    rw [cancelOrder]
    simp only [h, permBool_eq_false hperm, Bool.false_eq_true, if_false, hs, if_true]

/-- Witness for the amended C2 at a concrete shipped order. -/
theorem c2_status_witness :
    ((updateOrder dbShippedOrder adminUser 41 ⟨some OrderStatus.confirmed, none⟩).2 =
      .ok ⟨41, 1, .confirmed, .pending, 100, 10, 10, 120⟩ ∧
    findOrder (updateOrder dbShippedOrder adminUser 41
        ⟨some OrderStatus.confirmed, none⟩).1 41 =
      some ⟨41, 1, .confirmed, .pending, 100, 10, 10, 120⟩) ∧
    cancelOrder dbShippedOrder adminUser 41 = (dbShippedOrder, .error .validationErr) :=
  ⟨c2_update_order_unchecked.1 dbShippedOrder adminUser 41 shippedOrder
    ⟨some .confirmed, none⟩ .confirmed (by decide) (by decide) rfl,
   c2_update_order_unchecked.2 dbShippedOrder adminUser 41 shippedOrder
    (by decide) (by decide) (Or.inl rfl)⟩

/-- Claim C1: insufficient stock (or a vanished product) makes order creation
fail with nothing written — but through the cart-checkout path the failure for
an EXISTING product is an `AttributeError` (HTTP 500), not a validation error,
because `checkout_cart` reads `product.is_active` and `product.stock_quantity`,
neither of which exists on the `Product` model.  `OrderService.create_order`
raises the proper `ValidationError` on insufficient stock (and `NotFoundError`
on a vanished product); in every case the returned state is the input state,
so no order header and no order items are written. -/
theorem c1_insufficient_stock_aborts :
    createOrder dbStockOne alice [⟨11, 2⟩] 100 200 = (dbStockOne, .error .validationErr) ∧
    createOrder dbStockOne alice [⟨99, 1⟩] 100 200 = (dbStockOne, .error .notFound) ∧
    checkoutCart dbLowStock alice cdManual envManual 100 200 300 =
      (dbLowStock, .error .attributeErr) ∧
    checkoutCart dbOrphanItem alice cdManual envManual 100 200 300 =
      (dbOrphanItem, .error .validationErr) := by
  decide

/-- Claim C3: the scenario the claim describes is unreachable.  Checkout of a
well-stocked cart through an unconfigured provider — which ought to commit the
order and then fail at the payment step — instead raises `AttributeError`
inside the validation loop (the `Product` model has no `is_active` or
`stock_quantity` column), so `checkout_cart` never creates an order at all:
the returned state is the unchanged input state, which contains no order. -/
theorem c3_checkout_payment_step_unreachable :
    checkoutCart dbAmpleStock alice ⟨21, 1 / 10, 0, .stripe⟩ envManual 100 200 300 =
      (dbAmpleStock, .error .attributeErr) ∧
    dbAmpleStock.orders = [] ∧
    envManual.configured.contains Provider.stripe = false := by
  decide

/-- Claim C6, counterexample: deleting the cart of user 1 leaves user 1 with
zero carts — no replacement cart is created, so a user does not always have
exactly one cart. -/
theorem c6_counterexample_delete_cart :
    (deleteCart dbOneCart alice 21).2 = .ok () ∧
    cartsOfUser (deleteCart dbOneCart alice 21).1 1 = [] ∧
    cartsOfUser dbOneCart 1 = [⟨21, 1, 0⟩] := by
  decide

theorem qtySum_cons (it : OrderItem) (rest : List OrderItem) (pid : EntityId) :
    qtySum (it :: rest) pid =
      (if it.productId == pid then (it.quantity : Int) else 0) + qtySum rest pid := by
  by_cases h : it.productId = pid <;> simp [qtySum, List.filter_cons, h]

theorem restoreStock_eq_map (items : List OrderItem) (products : List Product) :
    restoreStock products items =
      products.map (fun p => { p with stock := p.stock + qtySum items p.id }) := by
  induction items generalizing products with
  | nil =>
    show products = _
    conv_lhs => rw [← List.map_id products]
    apply List.map_congr_left
    intro p _
    simp [qtySum]
  | cons it rest ih =>
    show restoreStock (products.map fun p =>
        if p.id == it.productId then { p with stock := p.stock + (it.quantity : Int) }
        else p) rest = _
    rw [ih, List.map_map]
    apply List.map_congr_left
    intro p _
    by_cases h : p.id = it.productId
    · have hb : (it.productId == p.id) = true := by simp [h]
      simp only [Function.comp_apply, h, beq_self_eq_true, if_true, qtySum_cons, hb]
      simp only [Product.mk.injEq, true_and]
      ring
    · have hb : (p.id == it.productId) = false := beq_eq_false_iff_ne.mpr h
      have hb2 : (it.productId == p.id) = false :=
        beq_eq_false_iff_ne.mpr (fun hcc => h hcc.symm)
      simp only [Function.comp_apply, hb, Bool.false_eq_true, if_false, qtySum_cons,
        hb2, zero_add]

/-- Claim C4: cancelling an order in `SHIPPED`, `DELIVERED` or `CANCELLED`
status is rejected with a validation error and the state — the order and
every product stock included — is returned unchanged; cancelling a `PENDING`
order succeeds, stores the order with status `CANCELLED`, and adds back each
order item quantity to the stock of the corresponding product. -/
theorem c4_cancel_order :
    ∀ (db : DB) (user : User) (orderId : EntityId) (o : Order),
      findOrder db orderId = some o →
      ¬(user.role = .normalUser ∧ o.userId ≠ user.id) →
      ((o.status = .shipped ∨ o.status = .delivered ∨ o.status = .cancelled) →
        cancelOrder db user orderId = (db, .error .validationErr)) ∧
      (o.status = .pending →
        (cancelOrder db user orderId).2 = .ok { o with status := .cancelled } ∧
        findOrder (cancelOrder db user orderId).1 orderId =
          some { o with status := .cancelled } ∧
        (cancelOrder db user orderId).1.products =
          db.products.map (fun p =>
            { p with stock := p.stock + qtySum (orderItemsOf db orderId) p.id })) := by
  intro db user orderId o h hperm
  have hfind : db.orders.find? (fun x => x.id == orderId) = some o := by
    simpa [findOrder] using h
  have hid := List.find?_some hfind
  constructor
  · intro hstat
    have hs : (o.status == OrderStatus.shipped || o.status == OrderStatus.delivered ||
        o.status == OrderStatus.cancelled) = true := by
      rcases hstat with h1 | h1 | h1 <;> simp [h1]
    rw [cancelOrder]
    simp only [h, permBool_eq_false hperm, Bool.false_eq_true, if_false, hs, if_true]
  · intro hstat
    have hs : (o.status == OrderStatus.shipped || o.status == OrderStatus.delivered ||
        o.status == OrderStatus.cancelled) = false := by
      simp [hstat]
    rw [cancelOrder]
    simp only [h, permBool_eq_false hperm, Bool.false_eq_true, if_false, hs]
    refine ⟨trivial, ?_, ?_⟩
    · show (updateFirst (fun x => x.id == orderId) _ db.orders).find?
          (fun x => x.id == orderId) = _
      exact find?_updateFirst_same hfind hid
    · exact restoreStock_eq_map _ _

/-- Witness for C4: cancelling the pending order of `dbPendingOrder` restores
the two decremented units of product 11 (3 back to 5), and cancelling the
shipped order of `dbShippedOrder` is rejected with the state unchanged. -/
theorem c4_cancel_order_witness :
    ((cancelOrder dbPendingOrder alice 41).2 =
        .ok ⟨41, 1, .cancelled, .pending, 10, 1, 10, 21⟩ ∧
      (cancelOrder dbPendingOrder alice 41).1.products = [⟨11, 2, "widget", 5, 5⟩]) ∧
    cancelOrder dbShippedOrder alice 41 = (dbShippedOrder, .error .validationErr) := by
  have h1 := (c4_cancel_order dbPendingOrder alice 41 pendingOrder (by decide)
    (by decide)).2 rfl
  have h2 := (c4_cancel_order dbShippedOrder alice 41 shippedOrder (by decide)
    (by decide)).1 (Or.inl rfl)
  refine ⟨⟨h1.1, ?_⟩, h2⟩
  rw [h1.2.2]
  decide

/-- Claim C6, amended: every user has AT MOST one cart, not exactly one:
signup creates exactly one cart for the fresh user and `get_my_cart`
recreates a missing cart, but the cart-deletion endpoint removes the cart
without replacement, leaving the user with zero carts until `get_my_cart` is
next called.  No operation gives a user a second cart. -/
theorem c6_at_most_one_cart :
    (∀ (db : DB) (d : UserCreate) (userId cartId : EntityId),
      (∀ u ∈ db.users, u.email ≠ d.email) →
      (∀ u ∈ db.users, u.username ≠ d.username) →
      (∀ c ∈ db.carts, c.userId ≠ userId) →
      (createUser db d userId cartId).2 = .ok ⟨userId, d.email, d.username, d.role⟩ ∧
      cartsOfUser (createUser db d userId cartId).1 userId = [⟨cartId, userId, 0⟩]) ∧
    (∀ (db : DB) (user : User) (newCartId : EntityId),
      AtMostOneCartPerUser db →
      AtMostOneCartPerUser (getMyCart db user newCartId).1 ∧
      (cartsOfUser (getMyCart db user newCartId).1 user.id).length = 1) ∧
    (∀ (db : DB) (user : User) (cartId : EntityId),
      AtMostOneCartPerUser db →
      AtMostOneCartPerUser (deleteCart db user cartId).1) ∧
    (∀ (db : DB) (d : UserCreate) (userId cartId : EntityId),
      AtMostOneCartPerUser db →
      (∀ c ∈ db.carts, c.userId ≠ userId) →
      AtMostOneCartPerUser (createUser db d userId cartId).1) := by
  refine ⟨?_, ?_, ?_, ?_⟩
  · intro db d userId cartId hemail huser hfresh
    have he : db.users.find? (fun u0 => u0.email == d.email) = none :=
      List.find?_eq_none.mpr (fun u0 hu0 => by simpa using hemail u0 hu0)
    have hn : db.users.find? (fun u0 => u0.username == d.username) = none :=
      List.find?_eq_none.mpr (fun u0 hu0 => by simpa using huser u0 hu0)
    have hfc : db.carts.filter (fun c => c.userId == userId) = [] :=
      List.filter_eq_nil_iff.mpr (fun c hc => by simpa using hfresh c hc)
    rw [createUser]
    simp only [he, hn, Option.isSome_none, Bool.false_eq_true, if_false]
    refine ⟨trivial, ?_⟩
    show (db.carts ++ [(⟨cartId, userId, 0⟩ : Cart)]).filter
        (fun c => c.userId == userId) = _
    rw [List.filter_append, hfc]
    simp
  · intro db user newCartId hinv
    rw [getMyCart]
    cases hf : db.carts.find? (fun c => c.userId == user.id) with
    | some c =>
      refine ⟨hinv, ?_⟩
      have hpc := List.find?_some hf
      have hmem : c ∈ cartsOfUser db user.id :=
        List.mem_filter.mpr ⟨List.mem_of_find?_eq_some hf, hpc⟩
      have h1 : 0 < (cartsOfUser db user.id).length :=
        List.length_pos.mpr (List.ne_nil_of_mem hmem)
      exact Nat.le_antisymm (hinv user.id) h1
    | none =>
      have hnone : ∀ c ∈ db.carts, (c.userId == user.id) = false := by
        intro c hc
        simpa using List.find?_eq_none.mp hf c hc
      have hfc : db.carts.filter (fun c => c.userId == user.id) = [] :=
        List.filter_eq_nil_iff.mpr (fun c hc => by simp [hnone c hc])
      constructor
      · intro uid
        show ((db.carts ++ [(⟨newCartId, user.id, 0⟩ : Cart)]).filter
            (fun c => c.userId == uid)).length ≤ 1
        rw [List.filter_append]
        by_cases hu : uid = user.id
        · subst hu
          rw [hfc]
          simp
        · have hb : ((⟨newCartId, user.id, 0⟩ : Cart).userId == uid) = false :=
            beq_eq_false_iff_ne.mpr (fun hcc => hu hcc.symm)
          simp only [List.filter_cons, hb, Bool.false_eq_true, if_false,
            List.filter_nil, List.append_nil]
          exact hinv uid
      · show ((db.carts ++ [(⟨newCartId, user.id, 0⟩ : Cart)]).filter
            (fun c => c.userId == user.id)).length = 1
        rw [List.filter_append, hfc]
        simp
  · intro db user cartId hinv uid
    rw [deleteCart]
    cases hf : db.carts.find? (fun c => c.id == cartId) with
    | none => exact hinv uid
    | some c =>
      simp only [roleIsKnown_eq_true, Bool.not_true, Bool.false_eq_true, if_false]
      show ((db.carts.eraseP (fun c0 => c0.id == cartId)).filter
          (fun c0 => c0.userId == uid)).length ≤ 1
      calc ((db.carts.eraseP (fun c0 => c0.id == cartId)).filter
            (fun c0 => c0.userId == uid)).length
          ≤ (db.carts.filter (fun c0 => c0.userId == uid)).length :=
            ((List.eraseP_sublist _).filter _).length_le
        _ ≤ 1 := hinv uid
  · intro db d userId cartId hinv hfresh uid
    rw [createUser]
    cases he : (db.users.find? (fun u0 => u0.email == d.email)).isSome with
    | true => exact hinv uid
    | false =>
      cases hn : (db.users.find? (fun u0 => u0.username == d.username)).isSome with
      | true => exact hinv uid
      | false =>
        show ((db.carts ++ [(⟨cartId, userId, 0⟩ : Cart)]).filter
            (fun c => c.userId == uid)).length ≤ 1
        rw [List.filter_append]
        by_cases hu : uid = userId
        · subst hu
          have hfc : db.carts.filter (fun c => c.userId == uid) = [] :=
            List.filter_eq_nil_iff.mpr (fun c hc => by simpa using hfresh c hc)
          rw [hfc]
          simp
        · have hb : ((⟨cartId, userId, 0⟩ : Cart).userId == uid) = false :=
            beq_eq_false_iff_ne.mpr (fun hcc => hu hcc.symm)
          simp only [List.filter_cons, hb, Bool.false_eq_true, if_false,
            List.filter_nil, List.append_nil]
          exact hinv uid

/-- Witness for the amended C6: signup gives the fresh user 5 exactly one
cart, `get_my_cart` leaves user 1 with exactly one cart, and both cart
deletion and signup keep the at-most-one bound. -/
theorem c6_at_most_one_cart_witness :
    (cartsOfUser (createUser dbOneCart ⟨"bob@example.com", "bob", .normalUser⟩ 5 22).1 5 =
      [⟨22, 5, 0⟩]) ∧
    (AtMostOneCartPerUser (getMyCart dbOneCart alice 33).1 ∧
      (cartsOfUser (getMyCart dbOneCart alice 33).1 alice.id).length = 1) ∧
    AtMostOneCartPerUser (deleteCart dbOneCart alice 21).1 ∧
    AtMostOneCartPerUser (createUser dbOneCart
      ⟨"bob@example.com", "bob", .normalUser⟩ 5 22).1 := by
  have hinv : AtMostOneCartPerUser dbOneCart := by
    intro uid
    show (dbOneCart.carts.filter (fun c => c.userId == uid)).length ≤ 1
    exact le_trans (List.length_filter_le _ _) (by decide)
  exact ⟨(c6_at_most_one_cart.1 dbOneCart ⟨"bob@example.com", "bob", .normalUser⟩ 5 22
      (by decide) (by decide) (by decide)).2,
    c6_at_most_one_cart.2.1 dbOneCart alice 33 hinv,
    c6_at_most_one_cart.2.2.1 dbOneCart alice 21 hinv,
    c6_at_most_one_cart.2.2.2 dbOneCart ⟨"bob@example.com", "bob", .normalUser⟩ 5 22
      hinv (by decide)⟩

/-- Claim C7: a refund request for an existing payment of the requester (or
by an admin) whose amount strictly exceeds the original payment amount is
rejected with a validation error and the state is returned unchanged — no
refund row is created and the payment status is untouched.  (The `gt=0`
schema validation on `RefundCreate.amount` gives the positivity hypothesis.) -/
theorem c7_refund_exceeding_amount_rejected :
    ∀ (db : DB) (user : User) (rd : RefundData) (env : ProviderEnv)
      (refundId : EntityId) (pay : Payment) (a : Money),
      findPayment db rd.paymentId = some pay →
      (pay.userId = user.id ∨ user.role = .admin) →
      rd.amount = some a →
      pay.amount < a →
      0 < a →
      createRefund db user rd env refundId = (db, .error .validationErr) := by
  intro db user rd env refundId pay a h hperm hamt hlt hpos
  have hpb : (!(pay.userId == user.id) && !(user.role == UserRole.admin)) = false := by
    rcases hperm with h1 | h1 <;> simp [h1]
  rw [createRefund]
  simp only [h, hpb, Bool.false_eq_true, if_false]
  cases hst : (pay.status == PayStatus.completed) with
  | false => simp [hst]
  | true =>
    have ha0 : ¬(a = 0) := by
      intro hz
      rw [hz] at hpos
      exact lt_irrefl 0 hpos
    simp only [hst, Bool.not_true, Bool.false_eq_true, if_false, hamt, ha0, if_false]
    have hgt : a > pay.amount := hlt
    simp [hgt]

/-- Witness for C7: refunding 121 against the completed 120 payment is
rejected and the store is unchanged. -/
theorem c7_refund_witness :
    createRefund dbPayDone alice ⟨61, some 121⟩ envManual 300 =
      (dbPayDone, .error .validationErr) :=
  c7_refund_exceeding_amount_rejected dbPayDone alice ⟨61, some 121⟩ envManual 300
    donePayment 121 (by decide) (Or.inl rfl) rfl (by decide) (by decide)

/-- Claim C8: creating a user with an email that an existing user already has
fails with a conflict error before anything is written — the returned state is
the input state, so no second user row exists and the existing row is
unchanged. -/
theorem c8_duplicate_email_conflict :
    ∀ (db : DB) (d : UserCreate) (userId cartId : EntityId) (u : User),
      u ∈ db.users → u.email = d.email →
      createUser db d userId cartId = (db, .error .conflict) := by
  intro db d userId cartId u hu he
  have hsome : (db.users.find? (fun u0 => u0.email == d.email)).isSome := by
    rw [List.find?_isSome]
    exact ⟨u, hu, by simp [he]⟩
  rw [createUser, if_pos hsome]

/-- Witness for C8: registering a second account with the email of `alice`
returns a conflict and leaves the store unchanged. -/
theorem c8_duplicate_email_witness :
    createUser dbOneCart ⟨"alice@example.com", "bob", .normalUser⟩ 7 8 =
      (dbOneCart, .error .conflict) :=
  c8_duplicate_email_conflict dbOneCart ⟨"alice@example.com", "bob", .normalUser⟩ 7 8
    alice (by decide) rfl

/-- Claim C9: a payment intent for an existing order of the requester whose
requested amount differs from the order total is rejected with a validation
error and the state is unchanged (no `Payment` row created); conversely,
whenever `create_payment_intent` succeeds, the created payment's amount
equals the total of the referenced order, and the only state change is the
appended payment row. -/
theorem c9_payment_amount_matches_order :
    (∀ (db : DB) (user : User) (d : PaymentIntentData) (env : ProviderEnv)
        (payId : EntityId) (o : Order),
      findOrder db d.orderId = some o →
      (o.userId = user.id ∨ user.role = .admin ∨ user.role = .seller) →
      d.amount ≠ o.totalAmount →
      createPaymentIntent db user d env payId = (db, .error .validationErr)) ∧
    (∀ (db : DB) (user : User) (d : PaymentIntentData) (env : ProviderEnv)
        (payId : EntityId) (db2 : DB) (pay : Payment),
      createPaymentIntent db user d env payId = (db2, .ok pay) →
      ∃ o : Order, findOrder db d.orderId = some o ∧ pay.amount = o.totalAmount ∧
        db2.payments = db.payments ++ [pay]) := by
  constructor
  · intro db user d env payId o h hperm hne
    have hpb : (!(o.userId == user.id) &&
        !(user.role == UserRole.admin || user.role == UserRole.seller)) = false := by
      rcases hperm with h1 | h1 | h1 <;> simp [h1]
    have hab : (d.amount == o.totalAmount) = false := beq_eq_false_iff_ne.mpr hne
    rw [createPaymentIntent]
    simp only [h, hpb, Bool.false_eq_true, if_false, hab, Bool.not_false, if_true]
  · intro db user d env payId db2 pay hsucc
    rw [createPaymentIntent] at hsucc
    cases hf : findOrder db d.orderId with
    | none => rw [hf] at hsucc; simp at hsucc
    | some o =>
      rw [hf] at hsucc
      split at hsucc
      next _x heq => simp at heq
      next _x o2 heq =>
        injection heq with heq2
        subst heq2
        split at hsucc
        case isTrue => simp at hsucc
        case isFalse =>
          split at hsucc
          case isTrue => simp at hsucc
          case isFalse hamt =>
            have hamt2 : d.amount = o.totalAmount := by simpa using hamt
            split at hsucc
            case isTrue => simp at hsucc
            case isFalse =>
              split at hsucc
              case isTrue => simp at hsucc
              case isFalse =>
                simp only [Prod.mk.injEq, Except.ok.injEq] at hsucc
                refine ⟨o, rfl, ?_, ?_⟩
                · rw [← hsucc.2]
                  exact hamt2
                · rw [← hsucc.1, ← hsucc.2]

/-- Witness for C9: requesting a 119 payment intent against the order whose
total is 120 is rejected with the state unchanged, while a successful 120
intent creates a payment matching the order total. -/
theorem c9_payment_amount_witness :
    (createPaymentIntent dbPayDone alice ⟨41, 119, .manual⟩ envManual 300 =
      (dbPayDone, .error .validationErr)) ∧
    (∃ o : Order, findOrder dbPayDone 41 = some o ∧
      (⟨300, 1, 41, 120, .manual, .pending⟩ : Payment).amount = o.totalAmount ∧
      (createPaymentIntent dbPayDone alice ⟨41, 120, .manual⟩ envManual 300).1.payments =
        dbPayDone.payments ++ [⟨300, 1, 41, 120, .manual, .pending⟩]) :=
  ⟨c9_payment_amount_matches_order.1 dbPayDone alice ⟨41, 119, .manual⟩ envManual 300
    ⟨41, 1, .pending, .paid, 100, 10, 10, 120⟩ (by decide) (Or.inl rfl) (by decide),
   c9_payment_amount_matches_order.2 dbPayDone alice ⟨41, 120, .manual⟩ envManual 300
    (createPaymentIntent dbPayDone alice ⟨41, 120, .manual⟩ envManual 300).1
    ⟨300, 1, 41, 120, .manual, .pending⟩ (by decide)⟩

theorem countP_key_le_one (key : α → EntityId) (k : EntityId) (l : List α)
    (h : (l.map key).Nodup) : l.countP (fun x => key x == k) ≤ 1 := by
  induction l with
  | nil => simp
  | cons x xs ih =>
    simp only [List.map_cons, List.nodup_cons] at h
    rw [List.countP_cons]
    by_cases hx : key x = k
    · have h0 : xs.countP (fun y => key y == k) = 0 := by
        rw [List.countP_eq_zero]
        intro y hy
        simp only [beq_iff_eq]
        intro hk
        exact h.1 (List.mem_map.mpr ⟨y, hy, hk.trans hx.symm⟩)
      simp [h0, hx]
    · have hb : (key x == k) = false := beq_eq_false_iff_ne.mpr hx
      simp only [hb, Bool.false_eq_true, if_false, Nat.add_zero]
      exact ih h.2

theorem countP_updateFirst_le (p q : α → Bool) (f : α → α) (l : List α)
    (h : ∀ x, q (f x) = true → q x = true) :
    (updateFirst p f l).countP q ≤ l.countP q := by
  induction l with
  | nil => simp [updateFirst]
  | cons x xs ih =>
    by_cases hp : p x = true
    · simp only [updateFirst, hp, if_true, List.countP_cons]
      have hif : (if q (f x) = true then 1 else 0) ≤ (if q x = true then 1 else 0) := by
        by_cases hq : q (f x) = true
        · simp [hq, h x hq]
        · simp [hq]
      exact Nat.add_le_add_left hif _
    · simp only [updateFirst, hp, Bool.false_eq_true, if_false, List.countP_cons]
      exact Nat.add_le_add_right ih _

theorem filter_map_eq_filter (g : α → α) (p : α → Bool) (l : List α)
    (h : ∀ x ∈ l, g x = x ∨ (p x = false ∧ p (g x) = false)) :
    (l.map g).filter p = l.filter p := by
  induction l with
  | nil => rfl
  | cons x xs ih =>
    have hx := h x (List.mem_cons_self x xs)
    have hxs := ih (fun y hy => h y (List.mem_cons_of_mem x hy))
    rcases hx with hgx | ⟨hpx, hpgx⟩
    · simp only [List.map_cons, List.filter_cons, hgx, hxs]
    · simp only [List.map_cons, List.filter_cons, hpx, hpgx, Bool.false_eq_true,
        if_false, hxs]

theorem filter_unsetAll_self (l : List PayMethodInfo) (uid : EntityId) :
    (unsetAllDefaults l uid).filter (fun m => m.userId == uid && m.isDefault) = [] := by
  rw [unsetAllDefaults, List.filter_eq_nil_iff]
  intro y hy
  obtain ⟨x, hx, rfl⟩ := List.mem_map.mp hy
  by_cases hxx : (x.userId == uid && x.isDefault) = true <;> simp [hxx]

theorem filter_unsetAll_other (l : List PayMethodInfo) (uid0 uid : EntityId)
    (hne : uid ≠ uid0) :
    (unsetAllDefaults l uid0).filter (fun m => m.userId == uid && m.isDefault) =
      l.filter (fun m => m.userId == uid && m.isDefault) := by
  rw [unsetAllDefaults]
  apply filter_map_eq_filter
  intro x _
  by_cases hxu : x.userId = uid0
  · right
    have hb : (x.userId == uid) = false := by
      rw [hxu]
      exact beq_eq_false_iff_ne.mpr (fun hcc => hne hcc.symm)
    constructor
    · simp [hb]
    · by_cases hc : (x.userId == uid0 && x.isDefault) = true <;> simp [hc, hb]
  · left
    have hb : (x.userId == uid0) = false := beq_eq_false_iff_ne.mpr hxu
    simp [hb]

theorem atMostOneDefault_createMethod (db : DB) (user : User) (d : PayMethodCreate)
    (env : ProviderEnv) (methodId : EntityId) (hinv : AtMostOneDefault db) :
    AtMostOneDefault (createPaymentMethod db user d env methodId).1 := by
  rw [createPaymentMethod]
  split
  · exact hinv
  · split
    · exact hinv
    · intro uid
      show (((if d.isDefault then unsetAllDefaults db.payMethods user.id
            else db.payMethods) ++
          [(⟨methodId, user.id, d.isDefault, true⟩ : PayMethodInfo)]).filter
            (fun m => m.userId == uid && m.isDefault)).length ≤ 1
      rw [List.filter_append, List.length_append]
      cases hd : d.isDefault with
      | true =>
        simp only [if_true]
        by_cases hu : uid = user.id
        · subst hu
          rw [filter_unsetAll_self]
          simp [List.filter_cons]
        · rw [filter_unsetAll_other db.payMethods user.id uid hu]
          have hb : ((user.id : EntityId) == uid) = false :=
            beq_eq_false_iff_ne.mpr (fun hcc => hu hcc.symm)
          simp only [List.filter_cons, hb, Bool.false_and, Bool.false_eq_true,
            if_false, List.filter_nil, List.length_nil, Nat.add_zero]
          exact hinv uid
      | false =>
        simp only [if_false, Bool.and_false, List.filter_cons, Bool.false_eq_true,
          List.filter_nil, List.length_nil, Nat.add_zero]
        exact hinv uid

theorem atMostOneDefault_updateMethod (db : DB) (user : User) (methodId : EntityId)
    (u : PayMethodUpdate) (hinv : AtMostOneDefault db) (hnd : PayMethodIdsNodup db) :
    AtMostOneDefault (updatePaymentMethod db user methodId u).1 := by
  rw [updatePaymentMethod]
  split
  · exact hinv
  next m0 hfind =>
    split
    case isTrue => exact hinv
    case isFalse hperm =>
      have hm0u : m0.userId = user.id := by simpa using hperm
      have hm0mem : m0 ∈ db.payMethods := List.mem_of_find?_eq_some hfind
      have hm0id : m0.id = methodId := by simpa using List.find?_some hfind
      intro uid
      have hinv2 : db.payMethods.countP (fun m => m.userId == uid && m.isDefault) ≤ 1 := by
        rw [List.countP_eq_length_filter]
        exact hinv uid
      cases hud : u.isDefault with
      | none =>
        show ((updateFirst (fun m => m.id == methodId) (applyMethodUpdate u)
            db.payMethods).filter (fun m => m.userId == uid && m.isDefault)).length ≤ 1
        rw [← List.countP_eq_length_filter]
        refine le_trans (countP_updateFirst_le _ _ _ _ ?_) hinv2
        intro x hqx
        cases hia : u.isActive <;> simpa [applyMethodUpdate, hud, hia] using hqx
      | some b =>
        cases b with
        | false =>
          show ((updateFirst (fun m => m.id == methodId) (applyMethodUpdate u)
              db.payMethods).filter (fun m => m.userId == uid && m.isDefault)).length ≤ 1
          rw [← List.countP_eq_length_filter]
          refine le_trans (countP_updateFirst_le _ _ _ _ ?_) hinv2
          intro x hqx
          exfalso
          cases hia : u.isActive <;> simp [applyMethodUpdate, hud, hia] at hqx
        | true =>
          have hkeys : (unsetOtherDefaults db.payMethods user.id methodId).map
              PayMethodInfo.id = db.payMethods.map PayMethodInfo.id := by
            rw [unsetOtherDefaults, List.map_map]
            apply List.map_congr_left
            intro x _
            by_cases hc : (x.userId = user.id ∧ x.isDefault = true) ∧
                ¬x.id = methodId <;> simp [hc]
          have hnd1 : ((unsetOtherDefaults db.payMethods user.id methodId).map
              PayMethodInfo.id).Nodup := by
            rw [hkeys]
            exact hnd
          show ((updateFirst (fun m => m.id == methodId) (applyMethodUpdate u)
              (unsetOtherDefaults db.payMethods user.id methodId)).filter
                (fun m => m.userId == uid && m.isDefault)).length ≤ 1
          rw [← List.countP_eq_length_filter,
            updateFirst_key_eq_map PayMethodInfo.id methodId _ _ hnd1,
            unsetOtherDefaults, List.map_map, List.countP_map]
          by_cases hu : uid = user.id
          · subst hu
            refine le_trans (List.countP_mono_left ?_)
              (countP_key_le_one PayMethodInfo.id methodId db.payMethods hnd)
            intro x _ hqx
            simp only [Function.comp_apply] at hqx
            by_cases hxm : x.id = methodId
            · simp [hxm]
            · exfalso
              by_cases hcp : x.userId = user.id ∧ x.isDefault = true
              · simp [hcp, hxm] at hqx
              · simp [hcp, hxm] at hqx
          · refine le_trans (List.countP_mono_left ?_) hinv2
            intro x hx hqx
            simp only [Function.comp_apply] at hqx
            by_cases hxm : x.id = methodId
            · exfalso
              have hxm0 : x = m0 :=
                List.inj_on_of_nodup_map hnd hx hm0mem (by rw [hxm, hm0id])
              have hxu : x.userId = user.id := by rw [hxm0, hm0u]
              cases hia : u.isActive <;>
                simp [applyMethodUpdate, hud, hia, hxm, hxu] at hqx <;>
                exact hu hqx.symm
            · by_cases hcp : x.userId = user.id ∧ x.isDefault = true
              · exfalso
                simp [hcp, hxm] at hqx
              · simpa [hcp, hxm] using hqx

/-- Claim C10: at most one saved payment method per user is flagged as
default, and both creating a payment method (which first clears every other
default of the user when `is_default` is set) and updating one (which clears
every OTHER default when setting `is_default`) preserve this invariant (the
update case uses the primary-key uniqueness of payment-method ids). -/
theorem c10_single_default_method :
    (∀ (db : DB) (user : User) (d : PayMethodCreate) (env : ProviderEnv)
        (methodId : EntityId), AtMostOneDefault db →
        AtMostOneDefault (createPaymentMethod db user d env methodId).1) ∧
    (∀ (db : DB) (user : User) (methodId : EntityId) (u : PayMethodUpdate),
        AtMostOneDefault db → PayMethodIdsNodup db →
        AtMostOneDefault (updatePaymentMethod db user methodId u).1) :=
  ⟨atMostOneDefault_createMethod, atMostOneDefault_updateMethod⟩

/-- Witness for C10 at a store holding one default payment method. -/
theorem c10_single_default_witness :
    AtMostOneDefault dbOneMethod ∧
    AtMostOneDefault (createPaymentMethod dbOneMethod alice ⟨.manual, true⟩
      envManual 72).1 ∧
    AtMostOneDefault (updatePaymentMethod dbOneMethod alice 71
      ⟨some true, none⟩).1 := by
  have hinv : AtMostOneDefault dbOneMethod := by
    intro uid
    show (dbOneMethod.payMethods.filter
      (fun m => m.userId == uid && m.isDefault)).length ≤ 1
    exact le_trans (List.length_filter_le _ _) (by decide)
  have hnd : PayMethodIdsNodup dbOneMethod := by
    show (dbOneMethod.payMethods.map PayMethodInfo.id).Nodup
    decide
  exact ⟨hinv,
    c10_single_default_method.1 dbOneMethod alice ⟨.manual, true⟩ envManual 72 hinv,
    c10_single_default_method.2 dbOneMethod alice 71 ⟨some true, none⟩ hinv hnd⟩

end ECom
